import Mathlib

/-!
Shallow embedding of `src/opendrift/models/openoil/adios/oil.py` (the ADIOS
oil-database interface of OpenDrift): the `ThinOil` and `OpendriftOil` data
model, the `__require_gnome_oil__` guard, and the guarded accessors,
including the vapor-pressure formula.

Modelling conventions:
  * Python dicts appearing in the parsed JSON records are association lists
    `List (String × JVal)`; a missing key raises `Err.keyError`, subscripting
    a non-dict raises `Err.typeError`, exactly as in CPython.
  * Python instance attributes that the code may leave unassigned are
    modelled as `Option`-valued slots; reading an unassigned slot raises
    `Err.attributeError`.  The `gnome_oil` attribute gets a tri-state slot
    `Option (Option GnomeOil)`: `none` = attribute never assigned,
    `some none` = assigned the value `None`, `some (some g)` = assigned a
    gnome-oil dict `g`.
  * numpy floating-point values are modelled by `NpFloat`: an exact real
    for the finite case plus `inf`, `ninf` and `nan`; the arithmetic below
    implements the IEEE-754 special-value propagation rules (signed zero is
    collapsed to `+0`, which is faithful here because every zero reaching a
    division in this module arises as `x - x = +0`).  Rounding is not
    modelled: finite results are exact reals.
  * External collaborators (`AdiosOil.from_py_json`, `make_gnome_oil`,
    `physical_properties.Density/KinematicViscosity`,
    `oil_water_surface_tension_from_api`) are not part of this file's
    source; per the spec they are opaque pure functions, so they enter the
    embedding as function parameters.
-/

/-- The error kinds this module can surface.  `notFullOil` is the dedicated
`NotFullOil` exception from the source; the others are the CPython builtin
exceptions raised by dict/attribute access and call binding. -/
inductive Err where
  | notFullOil
  | attributeError
  | keyError
  | typeError
deriving DecidableEq, Repr

/-- JSON-like Python values as they appear in the parsed ADIOS records.
Numbers are represented by rationals (no numeric computation is done on
them in this module). -/
inductive JVal where
  | str : String → JVal
  | num : ℚ → JVal
  | bool : Bool → JVal
  | null : JVal
  | arr : List JVal → JVal
  | obj : List (String × JVal) → JVal

/-- Dictionary lookup: first binding of key `k` (Python dicts have distinct
keys, so association lists with `Nodup` keys model them exactly). -/
def dictGet (d : List (String × JVal)) (k : String) : Option JVal :=
  match d with
  | [] => none
  | (k2, v) :: rest => if k2 = k then some v else dictGet rest k

/-- `d[k]` on a Python dict: `KeyError` when the key is missing. -/
def getKey (d : List (String × JVal)) (k : String) : Except Err JVal :=
  match dictGet d k with
  | some v => .ok v
  | none => .error .keyError

/-- Subscripting / kwargs-splatting a value that must be a dict:
`TypeError` when it is not one. -/
def asObj (v : JVal) : Except Err (List (String × JVal)) :=
  match v with
  | .obj l => .ok l
  | _ => .error .typeError

/-- `needle in hay` for Python strings: substring containment. -/
def containsSub (hay needle : List Char) : Bool :=
  match hay with
  | [] => needle.isEmpty
  | _ :: t => if needle.isPrefixOf hay then true else containsSub t needle

/-- `class ThinOil`: the listing summary record.  Python performs no type
checking on the constructor arguments, so every field holds a `JVal`. -/
structure ThinOil where
  id : JVal
  type : JVal
  name : JVal
  API : JVal
  gnome_suitable : JVal
  labels : JVal
  location : JVal
  model_completeness : JVal
  product_type : JVal
  sample_date : JVal

/-- The keyword parameters of `ThinOil.__init__` that the metadata dict is
splatted into (`_id` and `_type` are filled positionally). -/
def recognizedKeys : List String :=
  ["name", "API", "gnome_suitable", "labels", "location",
   "model_completeness", "product_type", "sample_date"]

/-- Binding `ThinOil(d['_id'], d['type'], **metadata)` succeeds exactly when
the metadata keys are precisely the recognized keyword parameters: a missing
parameter or an unexpected keyword each raise `TypeError`. -/
def kwargsOk (meta : List (String × JVal)) : Bool :=
  (recognizedKeys.all fun k => (dictGet meta k).isSome) &&
    (meta.all fun kv => recognizedKeys.contains kv.1)

/-- `ThinOil.from_json(d)`:
`return ThinOil(d['_id'], d['type'], **d['attributes']['metadata'])`. -/
def ThinOil.from_json (d : JVal) : Except Err ThinOil := do
  let dd ← asObj d
  let idv ← getKey dd "_id"
  let tyv ← getKey dd "type"
  let attrsv ← getKey dd "attributes"
  let attrs ← asObj attrsv
  let metav ← getKey attrs "metadata"
  let meta ← asObj metav
  if kwargsOk meta then do
    let namev ← getKey meta "name"
    let apiv ← getKey meta "API"
    let gsv ← getKey meta "gnome_suitable"
    let labelsv ← getKey meta "labels"
    let locv ← getKey meta "location"
    let mcv ← getKey meta "model_completeness"
    let ptv ← getKey meta "product_type"
    let sdv ← getKey meta "sample_date"
    return ⟨idv, tyv, namev, apiv, gsv, labelsv, locv, mcv, ptv, sdv⟩
  else
    .error .typeError

/-- `'GENERIC' in self.name`: Python `in` demands that `name` be a string
(`TypeError` otherwise) and tests literal substring containment. -/
def pyInStr (needle : String) (v : JVal) : Except Err Bool :=
  match v with
  | .str s => .ok (containsSub s.data needle.data)
  | _ => .error .typeError

/-- `ThinOil.is_generic`: `return 'GENERIC' in self.name`. -/
def ThinOil.is_generic (o : ThinOil) : Except Err Bool :=
  pyInStr "GENERIC" o.name

/-- A numpy double, modelled as an exact real plus the IEEE-754 special
values (`+inf`, `-inf`, `NaN`).  Rounding of finite results is not
modelled. -/
inductive NpFloat where
  | fin : ℝ → NpFloat
  | inf : NpFloat
  | ninf : NpFloat
  | nan : NpFloat

/-- IEEE addition on special values; `inf + (-inf) = NaN`, NaN absorbs. -/
noncomputable def npAdd : NpFloat → NpFloat → NpFloat
  | .fin a, .fin b => .fin (a + b)
  | .fin _, .inf => .inf
  | .fin _, .ninf => .ninf
  | .inf, .fin _ => .inf
  | .ninf, .fin _ => .ninf
  | .inf, .inf => .inf
  | .ninf, .ninf => .ninf
  | _, _ => .nan

/-- IEEE subtraction on special values. -/
noncomputable def npSub : NpFloat → NpFloat → NpFloat
  | .fin a, .fin b => .fin (a - b)
  | .fin _, .inf => .ninf
  | .fin _, .ninf => .inf
  | .inf, .fin _ => .inf
  | .ninf, .fin _ => .ninf
  | .inf, .ninf => .inf
  | .ninf, .inf => .ninf
  | _, _ => .nan

/-- IEEE multiplication on special values; `0 * inf = NaN`, sign rules for
infinities, NaN absorbs. -/
noncomputable def npMul : NpFloat → NpFloat → NpFloat
  | .fin a, .fin b => .fin (a * b)
  | .fin a, .inf => if 0 < a then .inf else if a < 0 then .ninf else .nan
  | .fin a, .ninf => if 0 < a then .ninf else if a < 0 then .inf else .nan
  | .inf, .fin b => if 0 < b then .inf else if b < 0 then .ninf else .nan
  | .ninf, .fin b => if 0 < b then .ninf else if b < 0 then .inf else .nan
  | .inf, .inf => .inf
  | .inf, .ninf => .ninf
  | .ninf, .inf => .ninf
  | .ninf, .ninf => .inf
  | _, _ => .nan

/-- IEEE division on special values; division of a nonzero finite by (+)0
gives a signed infinity (numpy emits a RuntimeWarning, raises nothing),
`0/0 = NaN`, `inf/inf = NaN`, `x/inf = 0`.  Zero is unsigned here: every
zero denominator in this module arises as `x - x = +0`. -/
noncomputable def npDiv : NpFloat → NpFloat → NpFloat
  | .fin a, .fin b =>
      if b = 0 then (if 0 < a then .inf else if a < 0 then .ninf else .nan)
      else .fin (a / b)
  | .fin _, .inf => .fin 0
  | .fin _, .ninf => .fin 0
  | .inf, .fin b => if 0 ≤ b then .inf else .ninf
  | .ninf, .fin b => if 0 ≤ b then .ninf else .inf
  | _, _ => .nan

/-- `np.exp`: `exp(-inf) = 0`, `exp(inf) = inf`, NaN absorbs. -/
noncomputable def NpFloat.exp : NpFloat → NpFloat
  | .fin a => .fin (Real.exp a)
  | .inf => .inf
  | .ninf => .fin 0
  | .nan => .nan

/-- `np.log`: `log` of a negative number is NaN, `log 0 = -inf` (numpy
warns, raises nothing), `log inf = inf`, NaN absorbs. -/
noncomputable def NpFloat.log : NpFloat → NpFloat
  | .fin a => if 0 < a then .fin (Real.log a) else if a = 0 then .ninf else .nan
  | .inf => .inf
  | .ninf => .nan
  | .nan => .nan

noncomputable instance : Add NpFloat := ⟨npAdd⟩

noncomputable instance : Sub NpFloat := ⟨npSub⟩

noncomputable instance : Mul NpFloat := ⟨npMul⟩

noncomputable instance : Div NpFloat := ⟨npDiv⟩

/-- Modelled from the spec: the metadata of the parsed domain object
produced by the external parser `AdiosOil.from_py_json`; only the
`gnome_suitable` flag is consulted by this module. -/
structure OilMetadata where
  gnome_suitable : Bool

/-- Modelled from the spec: the canonical parsed domain object (`Oil` from
`adios_db`); it "holds full physical/chemical metadata" and is opaque here
beyond its metadata flag. -/
structure AdiosOil where
  metadata : OilMetadata

/-- Modelled from the spec: the flattened gnome-oil dict produced by the
external `gnome_oil.make_gnome_oil` — "a mapping from property name to
numeric value or numeric sequence".  The fields listed are exactly the keys
this module reads. -/
structure GnomeOil where
  mass_fraction : List NpFloat
  api : NpFloat
  bullwinkle_time : NpFloat
  bullwinkle_fraction : NpFloat
  emulsion_water_fraction_max : NpFloat
  molecular_weight : List NpFloat
  k0y : NpFloat
  boiling_point : List NpFloat

/-- `class OpendriftOil(ThinOil)`: an instance after `__init__` has run.
`__init__` assigns only `data`, `id`, `name`, `oil` and (conditionally)
`gnome_oil`; the remaining `ThinOil` attribute slots are modelled as
`Option` values so that "never assigned" (`none`) is distinguishable.
`gnome_oil` is tri-state: `none` = attribute never assigned (reading it
raises `AttributeError`), `some none` = assigned Python `None`,
`some (some g)` = assigned the gnome-oil dict `g`. -/
structure OpendriftOil where
  data : JVal
  id : JVal
  name : JVal
  oil : AdiosOil
  gnome_oil : Option (Option GnomeOil)
  type : Option JVal
  API : Option JVal
  gnome_suitable : Option JVal
  labels : Option JVal
  location : Option JVal
  model_completeness : Option JVal
  product_type : Option JVal
  sample_date : Option JVal

/-- `OpendriftOil.__init__(self, o)`.  The external parser
`AdiosOil.from_py_json` and converter `gnome_oil.make_gnome_oil` are passed
in as (pure) function parameters; `copy.deepcopy` is the identity in a pure
model; the `pp(o)` debug print and the log lines are I/O only.  When
`self.oil.metadata.gnome_suitable` is false the constructor only logs: the
`gnome_oil` attribute is never assigned. -/
noncomputable def OpendriftOil.mk_init
    (from_py_json : JVal → Except Err AdiosOil)
    (make_gnome_oil : AdiosOil → GnomeOil)
    (o : JVal) : Except Err OpendriftOil := do
  -- self.data = o
  let oo ← asObj o
  let datav ← getKey oo "data"              -- data = o['data']
  let dataObj ← asObj datav
  let attrsv ← getKey dataObj "attributes"  -- meta = data['attributes']['metadata']
  let attrsObj ← asObj attrsv
  let metav ← getKey attrsObj "metadata"
  let metaObj ← asObj metav
  let idv ← getKey dataObj "_id"            -- self.id = data['_id']
  let namev ← getKey metaObj "name"         -- self.name = meta['name']
  let oil ← from_py_json attrsv             -- self.oil = AdiosOil.from_py_json(data['attributes'])
  if oil.metadata.gnome_suitable then
    -- self.gnome_oil = gnome_oil.make_gnome_oil(copy.deepcopy(self.oil))
    return ⟨o, idv, namev, oil, some (some (make_gnome_oil oil)),
            none, none, none, none, none, none, none, none⟩
  else
    -- logger.error(...): gnome_oil is left unassigned
    return ⟨o, idv, namev, oil, none,
            none, none, none, none, none, none, none, none⟩

/-- The wrapper `w` built by the decorator `__require_gnome_oil__`: it reads
`self.gnome_oil` (raising `AttributeError` if the attribute was never
assigned) and raises `NotFullOil()` when the value is `None`; otherwise the
wrapped body runs with the gnome-oil dict available. -/
def requireGnomeOil (o : OpendriftOil) : Except Err GnomeOil :=
  match o.gnome_oil with
  | none => .error .attributeError
  | some none => .error .notFullOil
  | some (some g) => .ok g

/-- The external physical-property evaluators used by `density_at_temp` and
`kvis_at_temp`, and the surface-tension correlation — all out-of-scope pure
collaborators, bundled as parameters. -/
structure Collab where
  density_fn : AdiosOil → NpFloat → String → NpFloat
  kvis_fn : AdiosOil → NpFloat → String → NpFloat
  surface_fn : NpFloat → NpFloat

/-- `density_at_temp(self, t, unit='K')` (guarded):
`return physical_properties.Density(self.oil).at_temp(t, unit)` — note the
body reads `self.oil`, not the gnome-oil dict. -/
def OpendriftOil.density_at_temp (cb : Collab) (o : OpendriftOil)
    (t : NpFloat) (unit : String) : Except Err NpFloat := do
  let _ ← requireGnomeOil o
  return cb.density_fn o.oil t unit

/-- `kvis_at_temp(self, t, unit='K')` (guarded). -/
def OpendriftOil.kvis_at_temp (cb : Collab) (o : OpendriftOil)
    (t : NpFloat) (unit : String) : Except Err NpFloat := do
  let _ ← requireGnomeOil o
  return cb.kvis_fn o.oil t unit

/-- `mass_fraction` property (guarded):
`return np.asarray(self.gnome_oil['mass_fraction'])`; `np.asarray` of a
numeric sequence materializes the same values in the same order. -/
def OpendriftOil.mass_fraction (o : OpendriftOil) :
    Except Err (List NpFloat) := do
  let g ← requireGnomeOil o
  return g.mass_fraction

/-- `oil_water_surface_tension(self)` (guarded):
`return oil_water_surface_tension_from_api(self.gnome_oil['api'])`. -/
def OpendriftOil.oil_water_surface_tension (cb : Collab)
    (o : OpendriftOil) : Except Err NpFloat := do
  let g ← requireGnomeOil o
  return cb.surface_fn g.api

/-- `bulltime` property (guarded): `return self.gnome_oil['bullwinkle_time']`. -/
def OpendriftOil.bulltime (o : OpendriftOil) : Except Err NpFloat := do
  let g ← requireGnomeOil o
  return g.bullwinkle_time

/-- `bullwinkle` property (guarded):
`return self.gnome_oil['bullwinkle_fraction']`. -/
def OpendriftOil.bullwinkle (o : OpendriftOil) : Except Err NpFloat := do
  let g ← requireGnomeOil o
  return g.bullwinkle_fraction

/-- `emulsion_water_fraction_max` property (guarded). -/
def OpendriftOil.emulsion_water_fraction_max (o : OpendriftOil) :
    Except Err NpFloat := do
  let g ← requireGnomeOil o
  return g.emulsion_water_fraction_max

/-- The body of `vapor_pressure` (source lines 172–186).  numpy evaluates
each line as an elementwise operation on arrays parallel to
`boiling_point`, with the scalars `temp`, `D_Zb`, `R_cal`,
`atmos_pressure` broadcast; that is exactly a `map` over the components. -/
noncomputable def vapor_pressure_core (boiling_point : List NpFloat)
    (temp : NpFloat) : List NpFloat :=
  let atmos_pressure : NpFloat := .fin 101325.0
  let D_Zb : NpFloat := .fin 0.97
  let R_cal : NpFloat := .fin 1.987
  boiling_point.map fun bp =>
    let D_S := .fin 8.75 + .fin 1.987 * NpFloat.log bp
    let C_2i := .fin 0.19 * bp - .fin 18
    let var := .fin 1 / (bp - C_2i) - .fin 1 / (temp - C_2i)
    let ln_Pi_Po := D_S * ((bp - C_2i) * (bp - C_2i)) / (D_Zb * R_cal * bp) * var
    NpFloat.exp ln_Pi_Po * atmos_pressure

/-- `vapor_pressure(self, temp)` (guarded): reads
`self.gnome_oil['boiling_point']` and applies the formula. -/
noncomputable def OpendriftOil.vapor_pressure (o : OpendriftOil)
    (temp : NpFloat) : Except Err (List NpFloat) := do
  let g ← requireGnomeOil o
  return vapor_pressure_core g.boiling_point temp

/-- `molecular_weight` property (guarded):
`return self.gnome_oil['molecular_weight']`. -/
def OpendriftOil.molecular_weight (o : OpendriftOil) :
    Except Err (List NpFloat) := do
  let g ← requireGnomeOil o
  return g.molecular_weight

/-- `k0y` property (guarded): `return self.gnome_oil['k0y']`. -/
def OpendriftOil.k0y (o : OpendriftOil) : Except Err NpFloat := do
  let g ← requireGnomeOil o
  return g.k0y

/-- Per the spec this formula is "defined componentwise" over the
boiling-point array by `D_S = 8.75 + 1.987*ln(b)`, `C_2i = 0.19*b - 18`,
`var = 1/(b - C_2i) - 1/(temp - C_2i)`,
`ln_ratio = D_S*(b - C_2i)^2/(0.97*1.987*b)*var`,
`Pi = exp(ln_ratio)*101325.0` — written here from the spec's words, to be
compared with `vapor_pressure_core` translated from the source. -/
noncomputable def vaporPressureFormula (boiling_point : List NpFloat)
    (temp : NpFloat) : List NpFloat :=
  boiling_point.map fun b =>
    let D_S := .fin 8.75 + .fin 1.987 * NpFloat.log b
    let C_2i := .fin 0.19 * b - .fin 18
    let var := .fin 1 / (b - C_2i) - .fin 1 / (temp - C_2i)
    let ln_ratio := D_S * ((b - C_2i) * (b - C_2i)) / (.fin 0.97 * .fin 1.987 * b) * var
    NpFloat.exp ln_ratio * .fin 101325.0

/-- The run-time result of an accessor: a scalar or an array. -/
inductive PyVal where
  | numv : NpFloat → PyVal
  | arrv : List NpFloat → PyVal

/-- One call to one of the ten accessors of `OpendriftOil`, with its
arguments. -/
inductive AccessorCall where
  | density_at_temp (t : NpFloat) (unit : String)
  | kvis_at_temp (t : NpFloat) (unit : String)
  | mass_fraction
  | oil_water_surface_tension
  | bulltime
  | bullwinkle
  | emulsion_water_fraction_max
  | vapor_pressure (temp : NpFloat)
  | molecular_weight
  | k0y

/-- Invoking an accessor on an instance: the result, paired with the
instance state after the call.  None of the accessor bodies contain an
attribute assignment, so the state after the call is the input state. -/
noncomputable def invoke (cb : Collab) (a : AccessorCall)
    (o : OpendriftOil) : (Except Err PyVal) × OpendriftOil :=
  (match a with
   | .density_at_temp t u => (o.density_at_temp cb t u).map .numv
   | .kvis_at_temp t u => (o.kvis_at_temp cb t u).map .numv
   | .mass_fraction => o.mass_fraction.map .arrv
   | .oil_water_surface_tension => (o.oil_water_surface_tension cb).map .numv
   | .bulltime => o.bulltime.map .numv
   | .bullwinkle => o.bullwinkle.map .numv
   | .emulsion_water_fraction_max => o.emulsion_water_fraction_max.map .numv
   | .vapor_pressure temp => (o.vapor_pressure temp).map .arrv
   | .molecular_weight => o.molecular_weight.map .arrv
   | .k0y => o.k0y.map .numv,
   o)

/-- A concrete gnome-oil dict (two pseudo-components, one boiling point). -/
noncomputable def gnomeEx : GnomeOil :=
  ⟨[.fin 0.3, .fin 0.7], .fin 30, .fin 100, .fin 0.2, .fin 0.9,
   [.fin 200, .fin 300], .fin 1, [.fin 400]⟩

/-- A second gnome-oil dict with the same `api` but different everything
else. -/
noncomputable def gnomeEx2 : GnomeOil :=
  ⟨[.fin 1], .fin 30, .fin 5, .fin 0.5, .fin 0.1, [.fin 99], .fin 2,
   [.fin 500]⟩

/-- Concrete collaborators for witnesses. -/
noncomputable def cbEx : Collab :=
  ⟨fun _ _ _ => .fin 900, fun _ _ _ => .fin 0.00001, fun x => x⟩

/-- A full record whose metadata is GNOME-suitable. -/
def recS : JVal :=
  .obj [("data", .obj
    [("_id", .str "AD01987"),
     ("attributes", .obj
       [("metadata", .obj [("name", .str "ALASKA NORTH SLOPE")])])])]

/-- A full record whose metadata is not GNOME-suitable. -/
def recNS : JVal :=
  .obj [("data", .obj
    [("_id", .str "AD02222"),
     ("attributes", .obj
       [("metadata", .obj [("name", .str "HEAVY FUEL OIL")])])])]

/-- A parser (external collaborator) that parses any attribute dict into a
gnome-suitable domain object. -/
noncomputable def parseS : JVal → Except Err AdiosOil := fun _ => .ok ⟨⟨true⟩⟩

/-- A parser that yields a non-gnome-suitable domain object. -/
noncomputable def parseNS : JVal → Except Err AdiosOil := fun _ => .ok ⟨⟨false⟩⟩

/-- A converter (external collaborator) producing a fixed gnome-oil dict. -/
noncomputable def convEx : AdiosOil → GnomeOil := fun _ => gnomeEx

/-- The instance `__init__` produces from `recS` with `parseS`/`convEx`. -/
noncomputable def instSuit : OpendriftOil :=
  ⟨recS, .str "AD01987", .str "ALASKA NORTH SLOPE", ⟨⟨true⟩⟩,
   some (some gnomeEx), none, none, none, none, none, none, none, none⟩

/-- The instance `__init__` produces from `recNS` with `parseNS`/`convEx`:
its `gnome_oil` attribute is unassigned. -/
noncomputable def instNoSuit : OpendriftOil :=
  ⟨recNS, .str "AD02222", .str "HEAVY FUEL OIL", ⟨⟨false⟩⟩,
   none, none, none, none, none, none, none, none, none⟩

/-- A gnome-suitable instance (as the claims quantify over instances, it is
given directly) holding `gnomeEx`. -/
noncomputable def oilS : OpendriftOil :=
  ⟨.null, .str "AD1", .str "OIL X", ⟨⟨true⟩⟩, some (some gnomeEx),
   none, none, none, none, none, none, none, none⟩

/-- A different gnome-suitable instance holding `gnomeEx2` (same `api`). -/
noncomputable def oilS2 : OpendriftOil :=
  ⟨.null, .str "AD2", .str "OIL Y", ⟨⟨true⟩⟩, some (some gnomeEx2),
   none, none, none, none, none, none, none, none⟩

/-- A concrete listing-fragment metadata dict with exactly the recognized
keys. -/
def metaEx : List (String × JVal) :=
  [("name", .str "GENERIC BUNKER C"), ("API", .num 12),
   ("gnome_suitable", .bool true), ("labels", .arr []),
   ("location", .str "NORWAY"), ("model_completeness", .num 80),
   ("product_type", .str "crude"), ("sample_date", .str "2020-01-01")]

/-- A concrete valid listing fragment. -/
def dEx : JVal :=
  .obj [("_id", .str "AD00999"), ("type", .str "oils"),
        ("attributes", .obj [("metadata", .obj metaEx)])]

/-- A `ThinOil` whose name contains "GENERIC". -/
def thinGen : ThinOil :=
  ⟨.str "X1", .str "oils", .str "GENERIC CRUDE", .num 30, .bool true,
   .arr [], .str "", .num 1, .str "", .str ""⟩

/-- A `ThinOil` whose name is the lower-case "generic crude". -/
def thinLower : ThinOil :=
  ⟨.str "X2", .str "oils", .str "generic crude", .num 30, .bool true,
   .arr [], .str "", .num 1, .str "", .str ""⟩

@[simp] theorem npFin_add (a b : ℝ) :
    NpFloat.fin a + NpFloat.fin b = NpFloat.fin (a + b) := rfl

@[simp] theorem npFin_sub (a b : ℝ) :
    NpFloat.fin a - NpFloat.fin b = NpFloat.fin (a - b) := rfl

@[simp] theorem npFin_sub_inf (a : ℝ) :
    NpFloat.fin a - NpFloat.inf = NpFloat.ninf := rfl

@[simp] theorem npFin_mul (a b : ℝ) :
    NpFloat.fin a * NpFloat.fin b = NpFloat.fin (a * b) := rfl

theorem npFin_mul_ninf_pos {a : ℝ} (h : 0 < a) :
    NpFloat.fin a * NpFloat.ninf = NpFloat.ninf := by
  show npMul _ _ = _
  simp [npMul, h]

theorem npFin_div {a b : ℝ} (h : b ≠ 0) :
    NpFloat.fin a / NpFloat.fin b = NpFloat.fin (a / b) := by
  show npDiv _ _ = _
  simp [npDiv, h]

theorem npFin_div_zero_pos {a : ℝ} (h : 0 < a) :
    NpFloat.fin a / NpFloat.fin 0 = NpFloat.inf := by
  show npDiv _ _ = _
  simp [npDiv, h]

@[simp] theorem npExp_fin (a : ℝ) :
    NpFloat.exp (NpFloat.fin a) = NpFloat.fin (Real.exp a) := rfl

@[simp] theorem npExp_ninf : NpFloat.exp NpFloat.ninf = NpFloat.fin 0 := rfl

theorem npLog_fin_pos {a : ℝ} (h : 0 < a) :
    NpFloat.log (NpFloat.fin a) = NpFloat.fin (Real.log a) := by
  simp [NpFloat.log, h]

theorem npLog_fin_neg {a : ℝ} (h : a < 0) :
    NpFloat.log (NpFloat.fin a) = NpFloat.nan := by
  simp [NpFloat.log, not_lt.mpr h.le, h.ne]

@[simp] theorem exc_bind_ok {α β : Type} (a : α) (f : α → Except Err β) :
    (Except.ok a >>= f) = f a := rfl

@[simp] theorem exc_bind_error {α β : Type} (e : Err) (f : α → Except Err β) :
    ((Except.error e : Except Err α) >>= f) = .error e := rfl

/-- Inversion of a successful `__init__`: the record was destructured along
the chain of dict accesses, the parser succeeded, and the resulting
instance has exactly the assigned attributes — with `gnome_oil` assigned
if and only if the parsed oil was gnome-suitable, and every inherited
`ThinOil` slot other than `id`/`name` left unassigned. -/
theorem mk_init_ok_elim {p : JVal → Except Err AdiosOil}
    {c : AdiosOil → GnomeOil} {o : JVal} {inst : OpendriftOil}
    (h : OpendriftOil.mk_init p c o = .ok inst) :
    ∃ oo datav dataObj attrsv attrsObj metav metaObj idv namev oil,
      asObj o = .ok oo ∧
      getKey oo "data" = .ok datav ∧
      asObj datav = .ok dataObj ∧
      getKey dataObj "attributes" = .ok attrsv ∧
      asObj attrsv = .ok attrsObj ∧
      getKey attrsObj "metadata" = .ok metav ∧
      asObj metav = .ok metaObj ∧
      getKey dataObj "_id" = .ok idv ∧
      getKey metaObj "name" = .ok namev ∧
      p attrsv = .ok oil ∧
      inst = ⟨o, idv, namev, oil,
              if oil.metadata.gnome_suitable then some (some (c oil)) else none,
              none, none, none, none, none, none, none, none⟩ := by
  unfold OpendriftOil.mk_init at h
  cases h0 : asObj o with
  | error e => rw [h0] at h; simp only [exc_bind_error] at h; exact absurd h (by simp)
  | ok oo =>
  rw [h0] at h; simp only [exc_bind_ok] at h
  cases h1 : getKey oo "data" with
  | error e => rw [h1] at h; simp only [exc_bind_error] at h; exact absurd h (by simp)
  | ok datav =>
  rw [h1] at h; simp only [exc_bind_ok] at h
  cases h2 : asObj datav with
  | error e => rw [h2] at h; simp only [exc_bind_error] at h; exact absurd h (by simp)
  | ok dataObj =>
  rw [h2] at h; simp only [exc_bind_ok] at h
  cases h3 : getKey dataObj "attributes" with
  | error e => rw [h3] at h; simp only [exc_bind_error] at h; exact absurd h (by simp)
  | ok attrsv =>
  rw [h3] at h; simp only [exc_bind_ok] at h
  cases h4 : asObj attrsv with
  | error e => rw [h4] at h; simp only [exc_bind_error] at h; exact absurd h (by simp)
  | ok attrsObj =>
  rw [h4] at h; simp only [exc_bind_ok] at h
  cases h5 : getKey attrsObj "metadata" with
  | error e => rw [h5] at h; simp only [exc_bind_error] at h; exact absurd h (by simp)
  | ok metav =>
  rw [h5] at h; simp only [exc_bind_ok] at h
  cases h6 : asObj metav with
  | error e => rw [h6] at h; simp only [exc_bind_error] at h; exact absurd h (by simp)
  | ok metaObj =>
  rw [h6] at h; simp only [exc_bind_ok] at h
  cases h7 : getKey dataObj "_id" with
  | error e => rw [h7] at h; simp only [exc_bind_error] at h; exact absurd h (by simp)
  | ok idv =>
  rw [h7] at h; simp only [exc_bind_ok] at h
  cases h8 : getKey metaObj "name" with
  | error e => rw [h8] at h; simp only [exc_bind_error] at h; exact absurd h (by simp)
  | ok namev =>
  rw [h8] at h; simp only [exc_bind_ok] at h
  cases h9 : p attrsv with
  | error e => rw [h9] at h; simp only [exc_bind_error] at h; exact absurd h (by simp)
  | ok oil =>
  rw [h9] at h; simp only [exc_bind_ok] at h
  refine ⟨oo, datav, dataObj, attrsv, attrsObj, metav, metaObj, idv, namev, oil,
    rfl, h1, h2, h3, h4, h5, h6, h7, h8, h9, ?_⟩
  by_cases hg : oil.metadata.gnome_suitable
  · simp only [hg, if_true, pure, Except.pure, Except.ok.injEq] at h
    simp only [hg, if_true]
    exact h.symm
  · simp only [hg, if_false, Bool.false_eq_true, pure, Except.pure, Except.ok.injEq] at h
    simp only [hg, Bool.false_eq_true, if_false]
    exact h.symm

theorem dictGet_isSome_iff {d : List (String × JVal)} {k : String} :
    (dictGet d k).isSome = true ↔ k ∈ d.map Prod.fst := by
  induction d with
  | nil => simp [dictGet]
  | cons kv rest ih =>
    obtain ⟨k2, v⟩ := kv
    by_cases hk : k2 = k
    · subst hk; simp [dictGet]
    · simp [dictGet, hk, ih, Ne.symm hk]

theorem getKey_ok_iff {d : List (String × JVal)} {k : String} {v : JVal} :
    getKey d k = .ok v ↔ dictGet d k = some v := by
  unfold getKey
  cases h : dictGet d k <;> simp

/-- `kwargsOk` is exactly "the metadata keys are, as a set, the recognized
keyword parameters". -/
theorem kwargsOk_iff {meta : List (String × JVal)} :
    kwargsOk meta = true ↔
      ∀ k, k ∈ recognizedKeys ↔ k ∈ meta.map Prod.fst := by
  unfold kwargsOk
  rw [Bool.and_eq_true, List.all_eq_true, List.all_eq_true]
  constructor
  · rintro ⟨h1, h2⟩ k
    constructor
    · intro hk
      exact dictGet_isSome_iff.mp (h1 k hk)
    · intro hk
      obtain ⟨⟨k', v⟩, hmem, rfl⟩ := List.mem_map.mp hk
      have := h2 _ hmem
      simpa [List.contains_iff_exists_mem_beq, beq_iff_eq] using this
  · intro h
    refine ⟨fun k hk => dictGet_isSome_iff.mpr ((h k).mp hk), ?_⟩
    intro kv hmem
    have : kv.1 ∈ meta.map Prod.fst := List.mem_map.mpr ⟨kv, hmem, rfl⟩
    have hr := (h kv.1).mpr this
    simpa [List.contains_iff_exists_mem_beq, beq_iff_eq] using hr

theorem isPrefixOf_eq_true_iff {l1 l2 : List Char} :
    l1.isPrefixOf l2 = true ↔ ∃ t, l2 = l1 ++ t := by
  induction l1 generalizing l2 with
  | nil => simp [List.isPrefixOf]
  | cons a l1 ih =>
    cases l2 with
    | nil => simp [List.isPrefixOf]
    | cons b l2 =>
      simp only [List.isPrefixOf, Bool.and_eq_true, beq_iff_eq, ih,
        List.cons_append, List.cons.injEq]
      constructor
      · rintro ⟨rfl, t, rfl⟩; exact ⟨t, rfl, rfl⟩
      · rintro ⟨t, rfl, rfl⟩; exact ⟨rfl, t, rfl⟩

/-- `containsSub hay needle` decides literal substring occurrence. -/
theorem containsSub_iff {hay needle : List Char} :
    containsSub hay needle = true ↔
      ∃ pre post, hay = pre ++ needle ++ post := by
  induction hay with
  | nil =>
    simp only [containsSub, List.isEmpty_iff]
    constructor
    · rintro rfl; exact ⟨[], [], rfl⟩
    · rintro ⟨pre, post, h⟩
      rcases List.append_eq_nil.mp (List.append_eq_nil.mp h.symm).1 with ⟨-, h2⟩
      exact h2
  | cons a t ih =>
    by_cases hp : needle.isPrefixOf (a :: t) = true
    · obtain ⟨s, hs⟩ := isPrefixOf_eq_true_iff.mp hp
      simp only [containsSub, hp, if_true, true_iff]
      exact ⟨[], s, by simpa using hs⟩
    · have hp' : needle.isPrefixOf (a :: t) = false := by
        cases hpp : needle.isPrefixOf (a :: t)
        · rfl
        · exact absurd hpp hp
      have hstep : containsSub (a :: t) needle = containsSub t needle := by
        simp [containsSub, hp']
      rw [hstep, ih]
      constructor
      · rintro ⟨pre, post, rfl⟩
        exact ⟨a :: pre, post, rfl⟩
      · rintro ⟨pre, post, h⟩
        cases pre with
        | nil =>
          exact absurd (isPrefixOf_eq_true_iff.mpr ⟨post, by simpa using h⟩) hp
        | cons b pre =>
          obtain ⟨rfl, h2⟩ := List.cons_eq_cons.mp (by simpa using h)
          exact ⟨pre, post, by simpa [List.append_assoc] using h2⟩

@[simp] theorem npFin_add_nan (a : ℝ) :
    NpFloat.fin a + NpFloat.nan = NpFloat.nan := rfl

@[simp] theorem npFin_mul_nan (a : ℝ) :
    NpFloat.fin a * NpFloat.nan = NpFloat.nan := rfl

@[simp] theorem npNan_mul_fin (a : ℝ) :
    NpFloat.nan * NpFloat.fin a = NpFloat.nan := rfl

@[simp] theorem npNan_mul_inf : NpFloat.nan * NpFloat.inf = NpFloat.nan := rfl

@[simp] theorem npNan_div_fin (a : ℝ) :
    NpFloat.nan / NpFloat.fin a = NpFloat.nan := rfl

@[simp] theorem npInf_sub_fin (a : ℝ) :
    NpFloat.inf - NpFloat.fin a = NpFloat.inf := rfl

@[simp] theorem npExp_nan : NpFloat.exp NpFloat.nan = NpFloat.nan := rfl

/-- Evaluation of the vapor-pressure pipeline on a single component when
every intermediate stays finite: it is the exact real closed form. -/
theorem vapor_pressure_core_fin {b temp : ℝ} (hb : 0 < b)
    (h1 : b - (0.19 * b - 18) ≠ 0) (h2 : temp - (0.19 * b - 18) ≠ 0)
    (h3 : 0.97 * 1.987 * b ≠ 0) :
    vapor_pressure_core [.fin b] (.fin temp) =
      [.fin (Real.exp ((8.75 + 1.987 * Real.log b) *
          ((b - (0.19 * b - 18)) * (b - (0.19 * b - 18))) /
          (0.97 * 1.987 * b) *
          (1 / (b - (0.19 * b - 18)) - 1 / (temp - (0.19 * b - 18)))) *
        101325.0)] := by
  simp only [vapor_pressure_core, List.map]
  rw [npLog_fin_pos hb]
  simp only [npFin_mul, npFin_add, npFin_sub]
  rw [npFin_div h1, npFin_div h2]
  simp only [npFin_sub, npFin_mul]
  rw [npFin_div h3]
  simp only [npFin_mul, npExp_fin]

/-- Evaluation at `boiling_point = [400]`, `temp = 58 = C_2i`: the
division by zero produces `+inf`, `var` becomes `-inf`, the (positive)
finite coefficient times `-inf` is `-inf`, and `exp(-inf) = 0`, so the
returned component is the finite value `0.0` — not an infinity, not NaN. -/
theorem vapor_pressure_core_at_c2i :
    vapor_pressure_core [.fin 400] (.fin 58) = [.fin 0] := by
  have hlog : 0 < Real.log 400 := Real.log_pos (by norm_num)
  simp only [vapor_pressure_core, List.map]
  rw [npLog_fin_pos (by norm_num : (0:ℝ) < 400)]
  simp only [npFin_mul, npFin_add, npFin_sub]
  rw [npFin_div (by norm_num : (400:ℝ) - (0.19 * 400 - 18) ≠ 0)]
  rw [show ((58:ℝ) - (0.19 * 400 - 18)) = 0 by norm_num]
  rw [npFin_div_zero_pos (by norm_num : (0:ℝ) < 1)]
  simp only [npFin_sub_inf, npFin_mul]
  rw [npFin_div (by norm_num : (0.97:ℝ) * 1.987 * 400 ≠ 0)]
  rw [npFin_mul_ninf_pos (by positivity :
    (0:ℝ) < (8.75 + 1.987 * Real.log 400) *
      ((400 - (0.19 * 400 - 18)) * (400 - (0.19 * 400 - 18))) /
      (0.97 * 1.987 * 400))]
  rw [npExp_ninf]
  simp only [npFin_mul]
  norm_num

/-- Evaluation at `boiling_point = [-200/9]`, a boiling point equal to its
own `C_2i`: `log` of a negative number is NaN and NaN propagates to the
returned component. -/
theorem vapor_pressure_core_at_bp_eq_c2i :
    vapor_pressure_core [.fin (-200 / 9)] (.fin 350) = [.nan] := by
  simp only [vapor_pressure_core, List.map]
  rw [npLog_fin_neg (by norm_num : (-200 / 9 : ℝ) < 0)]
  simp only [npFin_mul_nan, npFin_add_nan, npFin_mul, npFin_sub]
  simp only [npNan_mul_fin, npNan_div_fin]
  rw [show ((-200 / 9 : ℝ) - (0.19 * (-200 / 9) - 18)) = 0 by norm_num]
  rw [npFin_div_zero_pos (by norm_num : (0:ℝ) < 1)]
  rw [npFin_div (by norm_num : (350:ℝ) - (0.19 * (-200 / 9) - 18) ≠ 0)]
  simp only [npInf_sub_fin, npNan_mul_inf, npExp_nan]
  rfl

/-- C1: for an `OpendriftOil` whose `gnome_oil` is absent — the state
`__init__` leaves behind for a non-GNOME-suitable record — every accessor
marked "requires gnome oil" fails, but with `AttributeError`, never with
the dedicated `NotFullOil` kind: the constructor never assigns
`self.gnome_oil` in the unsuitable branch, so the guard's `is None` check
never fires.  This theorem evaluates the code at the failing input. -/
theorem c1_guard_raises_attributeError :
    OpendriftOil.mk_init parseNS convEx recNS = .ok instNoSuit ∧
    instNoSuit.gnome_oil = none ∧
    (∀ cb a, (invoke cb a instNoSuit).1 = .error .attributeError) ∧
    Err.attributeError ≠ Err.notFullOil := by
  refine ⟨rfl, rfl, ?_, by decide⟩
  intro cb a
  cases a <;> rfl

/-- C2 counterexample: on the instance built from a record whose
`metadata.gnome_suitable` is false, the guarded accessor `bulltime` raises
`AttributeError` — not the not-full-oil error the claim asserts — and
`density_at_temp`, which the claim asserts to be unguarded, raises the
same `AttributeError` instead of delegating to the density model. -/
theorem c2_counterexample :
    OpendriftOil.mk_init parseNS convEx recNS = .ok instNoSuit ∧
    instNoSuit.bulltime = .error .attributeError ∧
    instNoSuit.bulltime ≠ .error .notFullOil ∧
    OpendriftOil.density_at_temp cbEx instNoSuit (.fin 300) "K" =
      .error .attributeError := by
  refine ⟨rfl, rfl, ?_, rfl⟩
  intro h
  rw [show instNoSuit.bulltime = .error .attributeError from rfl] at h
  exact absurd (Except.error.injEq .. ▸ h) (by decide)

/-- C2 amended: for an `OpendriftOil` built from a record whose
`metadata.gnome_suitable` is false, every guarded accessor — including
`density_at_temp`, which is guarded as well — raises `AttributeError`
(the `gnome_oil` attribute is never assigned, so the `None` guard that
would raise the not-full-oil error never fires). -/
theorem c2_amended_unsuitable_raises_attributeError
    (p : JVal → Except Err AdiosOil) (c : AdiosOil → GnomeOil)
    (o : JVal) (inst : OpendriftOil)
    (h : OpendriftOil.mk_init p c o = .ok inst)
    (hns : inst.oil.metadata.gnome_suitable = false) :
    ∀ cb a, (invoke cb a inst).1 = .error .attributeError := by
  obtain ⟨oo, datav, dataObj, attrsv, attrsObj, metav, metaObj, idv, namev,
    oil, h0, h1, h2, h3, h4, h5, h6, h7, h8, h9, rfl⟩ := mk_init_ok_elim h
  have hg : oil.metadata.gnome_suitable = false := hns
  intro cb a
  cases a <;>
    simp [invoke, OpendriftOil.density_at_temp, OpendriftOil.kvis_at_temp,
      OpendriftOil.mass_fraction, OpendriftOil.oil_water_surface_tension,
      OpendriftOil.bulltime, OpendriftOil.bullwinkle,
      OpendriftOil.emulsion_water_fraction_max, OpendriftOil.vapor_pressure,
      OpendriftOil.molecular_weight, OpendriftOil.k0y,
      requireGnomeOil, hg, Except.map]

theorem c2_amended_witness :
    (invoke cbEx AccessorCall.mass_fraction instNoSuit).1 =
      .error .attributeError :=
  c2_amended_unsuitable_raises_attributeError parseNS convEx recNS instNoSuit
    rfl rfl cbEx .mass_fraction

/-- C3: for every instance the constructor produces, the `gnome_oil`
attribute is set (to the converted gnome-oil dict) if and only if the
parsed oil's `metadata.gnome_suitable` was true at construction, and no
accessor invocation changes the `gnome_oil` attribute. -/
theorem c3_gnome_oil_iff_suitable
    (p : JVal → Except Err AdiosOil) (c : AdiosOil → GnomeOil)
    (o : JVal) (inst : OpendriftOil)
    (h : OpendriftOil.mk_init p c o = .ok inst) :
    ((∃ g, inst.gnome_oil = some (some g)) ↔
      inst.oil.metadata.gnome_suitable = true) ∧
    ∀ cb a, ((invoke cb a inst).2).gnome_oil = inst.gnome_oil := by
  obtain ⟨oo, datav, dataObj, attrsv, attrsObj, metav, metaObj, idv, namev,
    oil, h0, h1, h2, h3, h4, h5, h6, h7, h8, h9, rfl⟩ := mk_init_ok_elim h
  refine ⟨?_, fun cb a => rfl⟩
  by_cases hg : oil.metadata.gnome_suitable = true
  · simp [hg]
  · simp [hg]

theorem c3_gnome_oil_iff_suitable_witness :
    ((∃ g, instSuit.gnome_oil = some (some g)) ↔
      instSuit.oil.metadata.gnome_suitable = true) ∧
    ∀ cb a, ((invoke cb a instSuit).2).gnome_oil = instSuit.gnome_oil :=
  c3_gnome_oil_iff_suitable parseS convEx recS instSuit rfl

/-- The source's vapor-pressure computation and the spec's componentwise
formula are the same function. -/
theorem formula_eq_core (b : List NpFloat) (t : NpFloat) :
    vaporPressureFormula b t = vapor_pressure_core b t := rfl

/-- C4: on a GNOME-suitable instance, `vapor_pressure(temp)` returns
exactly the array the spec's componentwise formula defines, parallel to
the boiling-point array; and at `boiling_point = [400]`, `temp = 350` the
value is the spec's closed form (`C_2i = 0.19*400 - 18 = 58`) — exactly,
in this exact-real model, hence within any relative tolerance. -/
theorem c4_vapor_pressure_matches_formula :
    (∀ (o : OpendriftOil) (g : GnomeOil) (temp : NpFloat),
        o.gnome_oil = some (some g) →
        o.vapor_pressure temp =
          .ok (vaporPressureFormula g.boiling_point temp) ∧
        (vaporPressureFormula g.boiling_point temp).length =
          g.boiling_point.length) ∧
    vaporPressureFormula [.fin 400] (.fin 350) =
      [.fin (Real.exp ((8.75 + 1.987 * Real.log 400) *
          ((400 - 58) * (400 - 58)) / (0.97 * 1.987 * 400) *
          (1 / (400 - 58) - 1 / (350 - 58))) * 101325.0)] := by
  constructor
  · intro o g temp h
    constructor
    · simp [OpendriftOil.vapor_pressure, requireGnomeOil, h, formula_eq_core]
    · simp [vaporPressureFormula]
  · rw [formula_eq_core]
    rw [vapor_pressure_core_fin (by norm_num) (by norm_num) (by norm_num)
      (by norm_num)]
    norm_num

theorem c4_vapor_pressure_witness :
    oilS.vapor_pressure (.fin 350) =
      .ok (vaporPressureFormula gnomeEx.boiling_point (.fin 350)) :=
  (c4_vapor_pressure_matches_formula.1 oilS gnomeEx (.fin 350) rfl).1

/-- C5 counterexample: with `boiling_point = [400]` (so `C_2i = 58`) and
`temp = 58 = C_2i`, `vapor_pressure` raises nothing — but the returned
component is the finite value `0.0`, not an infinity and not NaN: the
intermediate `1/(temp - C_2i) = +inf` makes `var = -inf`, and
`exp(-inf) = 0`. -/
theorem c5_counterexample_component_is_finite :
    oilS.vapor_pressure (.fin 58) = .ok [.fin 0] ∧
    NpFloat.fin 0.19 * .fin 400 - .fin 18 = .fin 58 ∧
    NpFloat.fin 0 ≠ .inf ∧ NpFloat.fin 0 ≠ .ninf ∧ NpFloat.fin 0 ≠ .nan := by
  refine ⟨?_, ?_, by simp, by simp, by simp⟩
  · have hr : requireGnomeOil oilS = .ok gnomeEx := rfl
    simp only [OpendriftOil.vapor_pressure, hr, exc_bind_ok]
    rw [show gnomeEx.boiling_point = [NpFloat.fin 400] from rfl,
      vapor_pressure_core_at_c2i]
    rfl
  · simp only [npFin_mul, npFin_sub]
    norm_num

/-- C5 amended: on a GNOME-suitable instance `vapor_pressure` never raises,
for any temperature, returning an array parallel to the boiling points;
singular components produce IEEE special values in the intermediates that
propagate silently, but the returned component is not necessarily infinite
or NaN: at `temp = C_2i` (positive coefficient) it is the finite `0.0`,
while a boiling point equal to its own `C_2i` (necessarily negative)
yields NaN. -/
theorem c5_amended_no_raise :
    (∀ (o : OpendriftOil) (g : GnomeOil) (temp : NpFloat),
        o.gnome_oil = some (some g) →
        ∃ l, o.vapor_pressure temp = .ok l ∧
          l.length = g.boiling_point.length) ∧
    vapor_pressure_core [.fin 400] (.fin 58) = [.fin 0] ∧
    vapor_pressure_core [.fin (-200 / 9)] (.fin 350) = [.nan] := by
  refine ⟨?_, vapor_pressure_core_at_c2i, vapor_pressure_core_at_bp_eq_c2i⟩
  intro o g temp h
  refine ⟨vapor_pressure_core g.boiling_point temp, ?_, ?_⟩
  · simp [OpendriftOil.vapor_pressure, requireGnomeOil, h]
  · simp [vapor_pressure_core]

theorem c5_amended_witness :
    ∃ l, oilS.vapor_pressure (.fin 58) = .ok l ∧
      l.length = gnomeEx.boiling_point.length :=
  c5_amended_no_raise.1 oilS gnomeEx (.fin 58) rfl

/-- C6 counterexample: after construction from a full (GNOME-suitable)
record, the inherited `ThinOil` attributes `API`, `type` and
`gnome_suitable` are absent — `__init__` never calls `ThinOil.__init__`
and assigns only `id` and `name` among them. -/
theorem c6_counterexample_attributes_absent :
    OpendriftOil.mk_init parseS convEx recS = .ok instSuit ∧
    instSuit.API = none ∧ instSuit.type = none ∧
    instSuit.gnome_suitable = none :=
  ⟨rfl, rfl, rfl, rfl⟩

/-- C6 amended: `OpendriftOil` is declared as a subclass of `ThinOil`, but
after construction only `id` and `name` among the `ThinOil` attributes are
set (from the record's `data._id` and `data.attributes.metadata.name`),
plus `data`, `oil` and — when suitable — `gnome_oil`; the remaining
`ThinOil` attributes are absent.  No accessor mutates the instance. -/
theorem c6_amended_only_id_name_set
    (p : JVal → Except Err AdiosOil) (c : AdiosOil → GnomeOil)
    (o : JVal) (inst : OpendriftOil)
    (h : OpendriftOil.mk_init p c o = .ok inst) :
    (∃ oo datav dataObj attrsv attrsObj metav metaObj,
      asObj o = .ok oo ∧ getKey oo "data" = .ok datav ∧
      asObj datav = .ok dataObj ∧
      getKey dataObj "attributes" = .ok attrsv ∧
      asObj attrsv = .ok attrsObj ∧
      getKey attrsObj "metadata" = .ok metav ∧
      asObj metav = .ok metaObj ∧
      getKey dataObj "_id" = .ok inst.id ∧
      getKey metaObj "name" = .ok inst.name) ∧
    inst.data = o ∧
    inst.type = none ∧ inst.API = none ∧ inst.gnome_suitable = none ∧
    inst.labels = none ∧ inst.location = none ∧
    inst.model_completeness = none ∧ inst.product_type = none ∧
    inst.sample_date = none ∧
    ∀ cb a, (invoke cb a inst).2 = inst := by
  obtain ⟨oo, datav, dataObj, attrsv, attrsObj, metav, metaObj, idv, namev,
    oil, h0, h1, h2, h3, h4, h5, h6, h7, h8, h9, rfl⟩ := mk_init_ok_elim h
  exact ⟨⟨oo, datav, dataObj, attrsv, attrsObj, metav, metaObj,
    h0, h1, h2, h3, h4, h5, h6, h7, h8⟩, rfl, rfl, rfl, rfl, rfl, rfl,
    rfl, rfl, rfl, fun cb a => rfl⟩

theorem c6_amended_witness :
    instSuit.API = none ∧
    (invoke cbEx AccessorCall.bulltime instSuit).2 = instSuit := by
  obtain ⟨-, -, -, hAPI, -, -, -, -, -, -, hinv⟩ :=
    c6_amended_only_id_name_set parseS convEx recS instSuit rfl
  exact ⟨hAPI, hinv cbEx _⟩

/-- C7: for a listing fragment with the `_id`/`type`/`attributes.metadata`
structure, `from_json` succeeds — with `id`, `type` and `name` taken from
`d['_id']`, `d['type']` and the metadata's `name` — exactly when the
metadata keys are, as a set, precisely the recognized field set; any
mismatch (extra or missing keys) fails with the structural `TypeError`
that Python raises for a bad keyword splat. -/
theorem c7_from_json_strict
    {d : JVal} {dd attrs meta : List (String × JVal)}
    {idv tyv attrsv metav : JVal}
    (hd : asObj d = .ok dd)
    (hid : getKey dd "_id" = .ok idv)
    (hty : getKey dd "type" = .ok tyv)
    (hat : getKey dd "attributes" = .ok attrsv)
    (hao : asObj attrsv = .ok attrs)
    (hmt : getKey attrs "metadata" = .ok metav)
    (hmo : asObj metav = .ok meta) :
    ((∀ k, k ∈ recognizedKeys ↔ k ∈ meta.map Prod.fst) →
      ∃ t : ThinOil, ThinOil.from_json d = .ok t ∧ t.id = idv ∧
        t.type = tyv ∧ getKey meta "name" = .ok t.name) ∧
    (¬ (∀ k, k ∈ recognizedKeys ↔ k ∈ meta.map Prod.fst) →
      ThinOil.from_json d = .error .typeError) := by
  have hstep : ThinOil.from_json d =
      if kwargsOk meta then
        (do
          let namev ← getKey meta "name"
          let apiv ← getKey meta "API"
          let gsv ← getKey meta "gnome_suitable"
          let labelsv ← getKey meta "labels"
          let locv ← getKey meta "location"
          let mcv ← getKey meta "model_completeness"
          let ptv ← getKey meta "product_type"
          let sdv ← getKey meta "sample_date"
          return ⟨idv, tyv, namev, apiv, gsv, labelsv, locv, mcv, ptv, sdv⟩)
      else .error .typeError := by
    unfold ThinOil.from_json
    rw [hd]; simp only [exc_bind_ok]
    rw [hid]; simp only [exc_bind_ok]
    rw [hty]; simp only [exc_bind_ok]
    rw [hat]; simp only [exc_bind_ok]
    rw [hao]; simp only [exc_bind_ok]
    rw [hmt]; simp only [exc_bind_ok]
    rw [hmo]; simp only [exc_bind_ok]
  constructor
  · intro hsem
    have hk : kwargsOk meta = true := kwargsOk_iff.mpr hsem
    have key_val : ∀ k, k ∈ recognizedKeys → ∃ v, getKey meta k = .ok v := by
      intro k hk2
      have hmem : k ∈ meta.map Prod.fst := (hsem k).mp hk2
      have hs := dictGet_isSome_iff.mpr hmem
      exact ⟨(dictGet meta k).get hs,
        getKey_ok_iff.mpr (Option.some_get hs).symm⟩
    obtain ⟨nv, hnv⟩ := key_val "name" (by simp [recognizedKeys])
    obtain ⟨av, hav⟩ := key_val "API" (by simp [recognizedKeys])
    obtain ⟨gv, hgv⟩ := key_val "gnome_suitable" (by simp [recognizedKeys])
    obtain ⟨lbv, hlbv⟩ := key_val "labels" (by simp [recognizedKeys])
    obtain ⟨lcv, hlcv⟩ := key_val "location" (by simp [recognizedKeys])
    obtain ⟨mcv, hmcv⟩ :=
      key_val "model_completeness" (by simp [recognizedKeys])
    obtain ⟨pv, hpv⟩ := key_val "product_type" (by simp [recognizedKeys])
    obtain ⟨sv, hsv⟩ := key_val "sample_date" (by simp [recognizedKeys])
    refine ⟨⟨idv, tyv, nv, av, gv, lbv, lcv, mcv, pv, sv⟩, ?_, rfl, rfl, hnv⟩
    rw [hstep, if_pos hk]
    rw [hnv]; simp only [exc_bind_ok]
    rw [hav]; simp only [exc_bind_ok]
    rw [hgv]; simp only [exc_bind_ok]
    rw [hlbv]; simp only [exc_bind_ok]
    rw [hlcv]; simp only [exc_bind_ok]
    rw [hmcv]; simp only [exc_bind_ok]
    rw [hpv]; simp only [exc_bind_ok]
    rw [hsv]; simp only [exc_bind_ok]
    rfl
  · intro hsem
    have hk : kwargsOk meta = false := by
      cases hkk : kwargsOk meta
      · rfl
      · exact absurd (kwargsOk_iff.mp hkk) hsem
    rw [hstep, hk]
    simp

theorem c7_from_json_witness :
    ∃ t : ThinOil, ThinOil.from_json dEx = .ok t ∧
      t.id = .str "AD00999" ∧ t.type = .str "oils" ∧
      getKey metaEx "name" = .ok t.name :=
  (@c7_from_json_strict dEx
    [("_id", .str "AD00999"), ("type", .str "oils"),
     ("attributes", .obj [("metadata", .obj metaEx)])]
    [("metadata", .obj metaEx)] metaEx
    (.str "AD00999") (.str "oils")
    (.obj [("metadata", .obj metaEx)]) (.obj metaEx)
    rfl rfl rfl rfl rfl rfl rfl).1 (fun _ => Iff.rfl)

/-- C8: `is_generic` returns true exactly when the literal substring
"GENERIC" occurs in the name — case-sensitive, no trimming. -/
theorem c8_is_generic_iff (o : ThinOil) (s : String) (h : o.name = .str s) :
    o.is_generic = .ok true ↔
      ∃ pre post, s.data = pre ++ "GENERIC".data ++ post := by
  unfold ThinOil.is_generic
  rw [h]
  simp only [pyInStr, Except.ok.injEq]
  exact containsSub_iff

theorem c8_is_generic_witness :
    thinGen.is_generic = .ok true ∧ thinLower.is_generic = .ok false := by
  constructor
  · exact (c8_is_generic_iff thinGen "GENERIC CRUDE" rfl).mpr
      ⟨[], " CRUDE".data, rfl⟩
  · rfl

/-- C9: on a GNOME-suitable instance, `mass_fraction` returns exactly the
sequence stored at `gnome_oil['mass_fraction']`: same length, same values
in order, no transformation. -/
theorem c9_mass_fraction_roundtrip (o : OpendriftOil) (g : GnomeOil)
    (h : o.gnome_oil = some (some g)) :
    o.mass_fraction = .ok g.mass_fraction ∧
    ∀ l, o.mass_fraction = .ok l →
      l.length = g.mass_fraction.length ∧ l = g.mass_fraction := by
  have hm : o.mass_fraction = .ok g.mass_fraction := by
    simp [OpendriftOil.mass_fraction, requireGnomeOil, h]
  refine ⟨hm, ?_⟩
  intro l hl
  rw [hm] at hl
  injection hl with h2
  exact ⟨by rw [← h2], h2.symm⟩

theorem c9_mass_fraction_witness :
    oilS.mass_fraction = .ok gnomeEx.mass_fraction ∧
    gnomeEx.mass_fraction.length = 2 :=
  ⟨(c9_mass_fraction_roundtrip oilS gnomeEx rfl).1, rfl⟩

/-- C10: `oil_water_surface_tension` depends on nothing but
`gnome_oil['api']` (given the fixed external correlation): two suitable
instances with equal `api` give equal results, and the result is the
correlation applied to `api`.  In this pure model, repeated invocation on
one unchanged instance is the `o1 = o2` special case. -/
theorem c10_surface_tension_api_only
    (cb : Collab) (o1 o2 : OpendriftOil) (g1 g2 : GnomeOil)
    (h1 : o1.gnome_oil = some (some g1))
    (h2 : o2.gnome_oil = some (some g2))
    (hapi : g1.api = g2.api) :
    o1.oil_water_surface_tension cb = o2.oil_water_surface_tension cb ∧
    o1.oil_water_surface_tension cb = .ok (cb.surface_fn g1.api) := by
  have e1 : o1.oil_water_surface_tension cb = .ok (cb.surface_fn g1.api) := by
    simp [OpendriftOil.oil_water_surface_tension, requireGnomeOil, h1]
  have e2 : o2.oil_water_surface_tension cb = .ok (cb.surface_fn g2.api) := by
    simp [OpendriftOil.oil_water_surface_tension, requireGnomeOil, h2]
  exact ⟨by rw [e1, e2, hapi], e1⟩

theorem c10_surface_tension_witness :
    OpendriftOil.oil_water_surface_tension cbEx oilS =
      OpendriftOil.oil_water_surface_tension cbEx oilS2 :=
  (c10_surface_tension_api_only cbEx oilS oilS2 gnomeEx gnomeEx2
    rfl rfl rfl).1

